import Mathlib

/-!
Verification of the cymrust library (src/src/lib.rs): a shallow embedding of
its query-encoding, response-parsing and result-merging logic, together with
theorems settling the specification claims.

Modelling conventions:
  * Rust `String`/`&str` values are `List Char`;
  * `SystemTime` and `Duration` are `Nat` (only ordering, `min` and `+` are
    used by the code);
  * a Rust panic (out-of-bounds index `fields[i]`, `Option::unwrap`) is
    modelled by `Option`: `none` means the function panics;
  * the DNS collaborator `resolve_txt` (external to the core per the spec) is
    a function parameter mapping a query name to either an error or a pair
    (TTL, TXT rows);
  * `chrono::NaiveDate::parse_from_str(_, "%Y-%m-%d")` is an external
    collaborator; it is modelled by `parseDate` below (4-digit year, 2-digit
    month/day, calendar-validity check), which agrees with chrono on all
    well-formed `YYYY-MM-DD` strings.
-/

/-- Rust `char::is_whitespace` (the Unicode White_Space property), used by
`str::trim`. -/
def isRustWhitespace (c : Char) : Bool :=
  (9 ≤ c.toNat && c.toNat ≤ 13) || c.toNat = 32 || c.toNat = 133 ||
    c.toNat = 160 || c.toNat = 5760 || (8192 ≤ c.toNat && c.toNat ≤ 8202) ||
    c.toNat = 8232 || c.toNat = 8233 || c.toNat = 8239 || c.toNat = 8287 ||
    c.toNat = 12288

/-- Rust `str::trim`: drop leading and trailing whitespace. -/
def trimChars (s : List Char) : List Char :=
  ((s.dropWhile isRustWhitespace).reverse.dropWhile isRustWhitespace).reverse

/-- Rust `str::split(sep)` for a `char` separator: the list of (possibly
empty) chunks between occurrences of `sep`.  Always returns at least one
chunk, like the Rust iterator. -/
def splitChar (sep : Char) : List Char → List (List Char)
  | [] => [[]]
  | c :: cs =>
    let r := splitChar sep cs
    if c = sep then [] :: r
    else
      match r with
      | [] => [[c]]
      | x :: xs => (c :: x) :: xs

/-- Rust `str::parse::<u32>()`: optional leading `+`, then one or more ASCII
digits, value below 2^32; anything else is an error (`none`). -/
def parseU32 (s : List Char) : Option Nat :=
  let digits :=
    match s with
    | '+' :: rest => rest
    | cs => cs
  if digits = [] then none
  else if digits.all Char.isDigit then
    let n := digits.foldl (fun a c => a * 10 + (c.toNat - 48)) 0
    if n < 4294967296 then some n else none
  else none

/-- Calendar date, standing for `chrono::NaiveDate`. -/
structure Date where
  year : Nat
  month : Nat
  day : Nat
  deriving DecidableEq, Repr

def isLeapYear (y : Nat) : Bool :=
  (y % 4 = 0 && y % 100 ≠ 0) || y % 400 = 0

def daysInMonth (y m : Nat) : Nat :=
  if m = 2 then (if isLeapYear y then 29 else 28)
  else if m = 4 ∨ m = 6 ∨ m = 9 ∨ m = 11 then 30
  else 31

def digitsToNat (l : List Char) : Nat :=
  l.foldl (fun a c => a * 10 + (c.toNat - 48)) 0

/-- Modelled from the spec: `parse_date` in the source delegates to the
external chrono collaborator (`NaiveDate::parse_from_str(date, "%Y-%m-%d")`);
per the spec, `allocated`, when present, is "a valid calendar date in
YYYY-MM-DD form — otherwise it is absent".  We accept exactly the 4-digit
year, 2-digit month and day form with a calendar-validity check. -/
def parseDate (s : List Char) : Option Date :=
  match splitChar '-' s with
  | [ys, ms, ds] =>
    if ys.length = 4 ∧ ys.all Char.isDigit ∧ ms.length = 2 ∧
        ms.all Char.isDigit ∧ ds.length = 2 ∧ ds.all Char.isDigit then
      let y := digitsToNat ys
      let m := digitsToNat ms
      let d := digitsToNat ds
      if 1 ≤ m ∧ m ≤ 12 ∧ 1 ≤ d ∧ d ≤ daysInMonth y m then
        some ⟨y, m, d⟩
      else none
    else none
  | _ => none

/-- Decimal rendering of a `u32`, as Rust `format!("{}")` produces. -/
def decimalChars (n : Nat) : List Char :=
  Nat.toDigits 10 n

/-- `chrono::NaiveDate` `Display` (`%Y-%m-%d`): zero-padded components. -/
def pad2 (n : Nat) : List Char :=
  if n < 10 then '0' :: decimalChars n else decimalChars n

def pad4 (n : Nat) : List Char :=
  if n < 10 then '0' :: '0' :: '0' :: decimalChars n
  else if n < 100 then '0' :: '0' :: decimalChars n
  else if n < 1000 then '0' :: decimalChars n
  else decimalChars n

def dateToChars (d : Date) : List Char :=
  pad4 d.year ++ '-' :: pad2 d.month ++ '-' :: pad2 d.day

/-- `IpAddr` from std: either four octets (V4, in address order a.b.c.d) or
sixteen octets (V6). -/
inductive IpAddr where
  | v4 (o0 o1 o2 o3 : Nat)
  | v6 (octets : List Nat)
  deriving DecidableEq, Repr

/-- `CymruASN` record (src/src/lib.rs lines 51-64). -/
structure CymruASN where
  as_number : Nat
  country_code : List Char
  registry : List Char
  allocated : Option Date
  as_name : List Char
  expires : Nat
  deriving DecidableEq, Repr

/-- `CymruOrigin` record (src/src/lib.rs lines 67-74); `bgpPrefix` is the
source's `bgp_prefix` field. -/
structure CymruOrigin where
  as_number : Nat
  bgpPrefix : List Char
  country_code : List Char
  registry : List Char
  allocated : Option Date
  expires : Nat
  deriving DecidableEq, Repr

/-- `CymruIP2ASN` record (src/src/lib.rs lines 29-46); `bgpPrefix` is the
source's `bgp_prefix` field, and `allocated` is the date rendered to text as
in `origin.allocated.map(|s| s.to_string())`. -/
structure CymruIP2ASN where
  ip_addr : IpAddr
  bgpPrefix : List Char
  as_number : Nat
  as_name : List Char
  country_code : List Char
  registry : List Char
  allocated : Option (List Char)
  expires : Nat
  deriving DecidableEq, Repr

/-- The library's `Error` enum; the payloads of the I/O and resolver variants
are abstracted to text. -/
inductive Error where
  | noResultsFound
  | ioError (msg : List Char)
  | resolverError (msg : List Char)
  deriving DecidableEq, Repr

/-- One row of `parse_cymru_asn` (the body of the `for record in records`
loop, src/src/lib.rs lines 189-206).  `none` models the panic that the Rust
code hits when it indexes `fields[1]`..`fields[4]` on a row with fewer than
five pipe-separated fields after the leading AS number parsed. -/
def parseAsnRow (record : List Char) (cacheUntil : Nat) :
    Option (List CymruASN) :=
  match (splitChar '|' record).map trimChars with
  | [] => some []
  | f0 :: rest =>
    match parseU32 f0 with
    | none => some []
    | some n =>
      match rest.get? 0, rest.get? 1, rest.get? 2, rest.get? 3 with
      | some f1, some f2, some f3, some f4 =>
        some [{ as_number := n, country_code := f1, registry := f2,
                allocated := parseDate f3, as_name := f4,
                expires := cacheUntil }]
      | _, _, _, _ => none

/-- `parse_cymru_asn` (src/src/lib.rs lines 186-209).  `none` models a panic
while processing some row. -/
def parse_cymru_asn : List (List Char) → Nat → Option (List CymruASN)
  | [], _ => some []
  | r :: rs, cacheUntil => do
    let x ← parseAsnRow r cacheUntil
    let xs ← parse_cymru_asn rs cacheUntil
    pure (x ++ xs)

/-- The inner `for asn in as_numbers` loop of `parse_cymru_origin`
(src/src/lib.rs lines 227-242): one record per token that parses as an AS
number; a token whose parse fails is skipped; a parsed token with fewer than
four remaining fields panics (`none`). -/
def parseOriginTokens (tokens : List (List Char)) (rest : List (List Char))
    (cacheUntil : Nat) : Option (List CymruOrigin) :=
  match tokens with
  | [] => some []
  | tok :: ts =>
    match parseU32 tok with
    | none => parseOriginTokens ts rest cacheUntil
    | some n =>
      match rest.get? 0, rest.get? 1, rest.get? 2, rest.get? 3 with
      | some f1, some f2, some f3, some f4 => do
        let more ← parseOriginTokens ts rest cacheUntil
        pure ({ as_number := n, bgpPrefix := f1, country_code := f2,
                registry := f3, allocated := parseDate f4,
                expires := cacheUntil } :: more)
      | _, _, _, _ => none

/-- One row of `parse_cymru_origin` (src/src/lib.rs lines 222-243): split on
`|`, trim, split the leading field on the space character, trim the tokens,
then run the token loop. -/
def parseOriginRow (record : List Char) (cacheUntil : Nat) :
    Option (List CymruOrigin) :=
  match (splitChar '|' record).map trimChars with
  | [] => some []
  | f0 :: rest =>
    parseOriginTokens ((splitChar ' ' f0).map trimChars) rest cacheUntil

/-- `parse_cymru_origin` (src/src/lib.rs lines 219-246).  `none` models a
panic while processing some row. -/
def parse_cymru_origin : List (List Char) → Nat → Option (List CymruOrigin)
  | [], _ => some []
  | r :: rs, cacheUntil => do
    let x ← parseOriginRow r cacheUntil
    let xs ← parse_cymru_origin rs cacheUntil
    pure (x ++ xs)

/-- `std::char::from_digit(i, 16)`: `none` for `i ≥ 16`, else the lowercase
hexadecimal digit.  The Rust code `unwrap`s the result. -/
def nibbleChar (i : Nat) : Option Char :=
  if i < 10 then some (Char.ofNat (48 + i))
  else if i < 16 then some (Char.ofNat (87 + i))
  else none

/-- The loop body of `ipv6_nibbles` over the reversed octets
(src/src/lib.rs lines 278-282): for each octet push the character of its low
nibble, then of its high nibble.  `none` models the `unwrap` panic. -/
def nibbleParts : List Nat → Option (List (List Char))
  | [] => some []
  | o :: os => do
    let lo ← nibbleChar (o % 16)
    let hi ← nibbleChar (o / 16)
    let rest ← nibbleParts os
    pure ([lo] :: [hi] :: rest)

/-- `ipv6_nibbles` (src/src/lib.rs lines 274-284): the address octets in
reverse, two nibble characters per octet, joined with `.`. -/
def ipv6_nibbles (octets : List Nat) : Option (List Char) := do
  let parts ← nibbleParts octets.reverse
  pure (List.intercalate ['.'] parts)

/-- The IPv4 arm of the query construction in `cymru_origin`
(src/src/lib.rs line 159): `format!("{}.{}.{}.{}.origin.asn.cymru.com.",
o[3], o[2], o[1], o[0])`. -/
def originQueryV4 (o0 o1 o2 o3 : Nat) : List Char :=
  decimalChars o3 ++ ".".data ++ decimalChars o2 ++ ".".data ++
    decimalChars o1 ++ ".".data ++ decimalChars o0 ++
    (".origin.asn.cymru.com.").data

/-- The query construction in `cymru_asn` (src/src/lib.rs line 140):
`format!("AS{}.asn.cymru.com.", asn)`. -/
def asnQuery (asn : Nat) : List Char :=
  'A' :: 'S' :: decimalChars asn ++ (".asn.cymru.com.").data

/-- The full query-name `match` of `cymru_origin` (src/src/lib.rs lines
156-165); `none` models a panic inside `ipv6_nibbles`. -/
def originQueryName : IpAddr → Option (List Char)
  | .v4 o0 o1 o2 o3 => some (originQueryV4 o0 o1 o2 o3)
  | .v6 octets => do
    let nibbles ← ipv6_nibbles octets
    pure (nibbles ++ (".origin6.asn.cymru.com.").data)

/-- The external DNS-TXT collaborator (`resolve_txt` minus its internal
resolver plumbing): a query name yields either an error or a TTL together
with the TXT rows. -/
def Resolver : Type :=
  List Char → Except Error (Nat × List (List Char))

/-- `cymru_asn` (src/src/lib.rs lines 139-151), parameterised by the DNS
collaborator and the current time.  Outer `none` models a panic inside the
parser. -/
def cymru_asn (rt : Resolver) (now : Nat) (asn : Nat) :
    Option (Except Error (List CymruASN)) :=
  match rt (asnQuery asn) with
  | .error e => some (.error e)
  | .ok (ttl, records) =>
    match parse_cymru_asn records (now + ttl) with
    | none => none
    | some results =>
      if results = [] then some (.error .noResultsFound)
      else some (.ok results)

/-- `cymru_origin` (src/src/lib.rs lines 155-176), parameterised likewise. -/
def cymru_origin (rt : Resolver) (now : Nat) (ip : IpAddr) :
    Option (Except Error (List CymruOrigin)) :=
  match originQueryName ip with
  | none => none
  | some q =>
    match rt q with
    | .error e => some (.error e)
    | .ok (ttl, records) =>
      match parse_cymru_origin records (now + ttl) with
      | none => none
      | some results =>
        if results = [] then some (.error .noResultsFound)
        else some (.ok results)

/-- The `CymruIP2ASN` struct literal built in the body of `cymru_ip2asn`'s
loop (src/src/lib.rs lines 105-114), with `a` standing for `asn[0]`. -/
def mkMerged (ip : IpAddr) (o : CymruOrigin) (a : CymruASN) : CymruIP2ASN :=
  { ip_addr := ip, bgpPrefix := o.bgpPrefix, as_number := o.as_number,
    as_name := a.as_name, country_code := o.country_code,
    registry := o.registry, allocated := o.allocated.map dateToChars,
    expires := min o.expires a.expires }

/-- The `'origins` loop of `cymru_ip2asn` (src/src/lib.rs lines 95-117):
skip an origin whose `as_number` is already in the accumulated results,
otherwise look up its AS info (propagating failure) and push the merged
record.  `some (.ok [])` from `cymru_asn` cannot happen, but the code would
index `asn[0]` out of bounds there, hence `none`. -/
def ip2asnLoop (rt : Resolver) (now : Nat) (ip : IpAddr) :
    List CymruOrigin → List CymruIP2ASN →
    Option (Except Error (List CymruIP2ASN))
  | [], acc => some (.ok acc)
  | o :: os, acc =>
    if o.as_number ∈ acc.map (fun r => r.as_number) then
      ip2asnLoop rt now ip os acc
    else
      match cymru_asn rt now o.as_number with
      | none => none
      | some (.error e) => some (.error e)
      | some (.ok []) => none
      | some (.ok (a :: _)) =>
        ip2asnLoop rt now ip os (acc ++ [mkMerged ip o a])

/-- `cymru_ip2asn` (src/src/lib.rs lines 91-124). -/
def cymru_ip2asn (rt : Resolver) (now : Nat) (ip : IpAddr) :
    Option (Except Error (List CymruIP2ASN)) :=
  match cymru_origin rt now ip with
  | none => none
  | some (.error e) => some (.error e)
  | some (.ok origins) =>
    match ip2asnLoop rt now ip origins [] with
    | none => none
    | some (.error e) => some (.error e)
    | some (.ok results) =>
      if results = [] then some (.error .noResultsFound)
      else some (.ok results)

/-- First-seen filter on origin records: the sublist of `origins` keeping,
for each `as_number` not in `seen`, only its first occurrence.  This captures
the effect of the `continue 'origins` membership test of `cymru_ip2asn`. -/
def firstSeen (seen : List Nat) : List CymruOrigin → List CymruOrigin
  | [] => []
  | o :: os =>
    if o.as_number ∈ seen then firstSeen seen os
    else o :: firstSeen (o.as_number :: seen) os

def firstOccurAux (seen : List Nat) : List Nat → List Nat
  | [] => []
  | a :: as =>
    if a ∈ seen then firstOccurAux seen as
    else a :: firstOccurAux (a :: seen) as

/-- The distinct values of a list, each at its first occurrence, in order. -/
def firstOccur (l : List Nat) : List Nat :=
  firstOccurAux [] l

/-- The merging loop specialised to an already-deduplicated origin list: no
membership test is needed.  `ip2asnLoop` is proved equal to `processAll` of
the `firstSeen` origins. -/
def processAll (rt : Resolver) (now : Nat) (ip : IpAddr) :
    List CymruOrigin → List CymruIP2ASN →
    Option (Except Error (List CymruIP2ASN))
  | [], acc => some (.ok acc)
  | o :: os, acc =>
    match cymru_asn rt now o.as_number with
    | none => none
    | some (.error e) => some (.error e)
    | some (.ok []) => none
    | some (.ok (a :: _)) =>
      processAll rt now ip os (acc ++ [mkMerged ip o a])

/-- Rust `str::split_whitespace`: maximal runs of non-whitespace characters
(no empty tokens).  Used only to state the spec's "split on whitespace"
reading of the origin parser. -/
def splitWSAux : List Char → List Char → List (List Char)
  | [], cur => if cur = [] then [] else [cur.reverse]
  | c :: cs, cur =>
    if isRustWhitespace c then
      if cur = [] then splitWSAux cs [] else cur.reverse :: splitWSAux cs []
    else splitWSAux cs (c :: cur)

def splitWS (s : List Char) : List (List Char) :=
  splitWSAux s []

/-- The claim's reading of one origin row: split the leading field on
whitespace and emit one record per token that parses as an AS number, all
sharing the remaining fields of the row. -/
def specWhitespaceOriginRow (record : List Char) (t : Nat) :
    List CymruOrigin :=
  match (splitChar '|' record).map trimChars with
  | [] => []
  | f0 :: rest =>
    (splitWS f0).filterMap fun tok =>
      (parseU32 tok).map fun n =>
        { as_number := n, bgpPrefix := rest.headD [],
          country_code := (rest.drop 1).headD [],
          registry := (rest.drop 2).headD [],
          allocated := parseDate ((rest.drop 3).headD []),
          expires := t }

/-- A concrete DNS collaborator used by the witnesses: an IPv4 origin
response with a duplicated AS number, and AS-info responses for the two
distinct numbers. -/
def demoResolve : Resolver := fun q =>
  if q = ("1.2.0.192.origin.asn.cymru.com.").data then
    .ok (60, [("23028 | 192.0.2.0/24 | US | arin | 1998-09-25").data,
              ("23028 | 198.51.100.0/24 | US | arin | 2000-01-01").data,
              ("64496 | 203.0.113.0/24 | GB | ripencc | 2006-02-17").data])
  else if q = ("AS23028.asn.cymru.com.").data then
    .ok (30, [("23028 | US | arin | 2002-01-04 | TEAMCYMRU - SAUNET").data])
  else if q = ("AS64496.asn.cymru.com.").data then
    .ok (45, [("64496 | GB | ripencc | 2006-02-17 | EXAMPLE - Example AS").data])
  else .error .noResultsFound

/-- A collaborator whose origin query succeeds but whose AS-info sub-query
fails with a resolution error. -/
def demoResolveFail : Resolver := fun q =>
  if q = ("1.2.0.192.origin.asn.cymru.com.").data then
    .ok (60, [("23028 | 192.0.2.0/24 | US | arin | 1998-09-25").data])
  else .error (.resolverError ("no connection available").data)

def demoIp : IpAddr := .v4 192 0 2 1

def demoOrigin1 : CymruOrigin :=
  { as_number := 23028, bgpPrefix := ("192.0.2.0/24").data,
    country_code := ("US").data, registry := ("arin").data,
    allocated := some ⟨1998, 9, 25⟩, expires := 60 }

def demoOrigin2 : CymruOrigin :=
  { as_number := 23028, bgpPrefix := ("198.51.100.0/24").data,
    country_code := ("US").data, registry := ("arin").data,
    allocated := some ⟨2000, 1, 1⟩, expires := 60 }

def demoOrigin3 : CymruOrigin :=
  { as_number := 64496, bgpPrefix := ("203.0.113.0/24").data,
    country_code := ("GB").data, registry := ("ripencc").data,
    allocated := some ⟨2006, 2, 17⟩, expires := 60 }

def demoAsn1 : CymruASN :=
  { as_number := 23028, country_code := ("US").data,
    registry := ("arin").data, allocated := some ⟨2002, 1, 4⟩,
    as_name := ("TEAMCYMRU - SAUNET").data, expires := 30 }

def demoAsn2 : CymruASN :=
  { as_number := 64496, country_code := ("GB").data,
    registry := ("ripencc").data, allocated := some ⟨2006, 2, 17⟩,
    as_name := ("EXAMPLE - Example AS").data, expires := 45 }

def demoMerged1 : CymruIP2ASN :=
  { ip_addr := demoIp, bgpPrefix := ("192.0.2.0/24").data,
    as_number := 23028, as_name := ("TEAMCYMRU - SAUNET").data,
    country_code := ("US").data, registry := ("arin").data,
    allocated := some (("1998-09-25").data), expires := 30 }

def demoMerged2 : CymruIP2ASN :=
  { ip_addr := demoIp, bgpPrefix := ("203.0.113.0/24").data,
    as_number := 64496, as_name := ("EXAMPLE - Example AS").data,
    country_code := ("GB").data, registry := ("ripencc").data,
    allocated := some (("2006-02-17").data), expires := 45 }

instance {e a : Type} [DecidableEq e] [DecidableEq a] :
    DecidableEq (Except e a) := fun x y =>
  match x, y with
  | .error u, .error v =>
    if h : u = v then .isTrue (by rw [h])
    else .isFalse (by intro hh; cases hh; exact h rfl)
  | .ok u, .ok v =>
    if h : u = v then .isTrue (by rw [h])
    else .isFalse (by intro hh; cases hh; exact h rfl)
  | .error _, .ok _ => .isFalse (by intro hh; cases hh)
  | .ok _, .error _ => .isFalse (by intro hh; cases hh)

/-! ## Helper lemmas -/

theorem cymru_asn_ok_ne_nil {rt : Resolver} {now a : Nat}
    {rs : List CymruASN} (h : cymru_asn rt now a = some (.ok rs)) :
    rs ≠ [] := by
  unfold cymru_asn at h
  split at h
  · simp at h
  · split at h
    · simp at h
    · split at h
      · simp at h
      · simp only [Option.some.injEq, Except.ok.injEq] at h
        subst h
        assumption

theorem nibbleChar_total {i : Nat} (h : i < 16) :
    ∃ c, nibbleChar i = some c := by
  unfold nibbleChar
  rw [if_pos (show i < 16 from h)]
  split
  · exact ⟨_, rfl⟩
  · exact ⟨_, rfl⟩

theorem nibbleParts_total {l : List Nat} (h : ∀ o ∈ l, o < 256) :
    ∃ ps, nibbleParts l = some ps := by
  induction l with
  | nil => exact ⟨[], rfl⟩
  | cons o os ih =>
    obtain ⟨lo, hlo⟩ := nibbleChar_total (i := o % 16) (Nat.mod_lt _ (by omega))
    have hdiv : o / 16 < 16 := by
      have := h o (List.mem_cons_self o os)
      omega
    obtain ⟨hi, hhi⟩ := nibbleChar_total hdiv
    obtain ⟨ps, hps⟩ := ih (fun x hx => h x (List.mem_cons_of_mem _ hx))
    exact ⟨[lo] :: [hi] :: ps, by simp [nibbleParts, hlo, hhi, hps]⟩

theorem firstSeen_congr :
    ∀ (l : List CymruOrigin) (s₁ s₂ : List Nat),
      (∀ a, a ∈ s₁ ↔ a ∈ s₂) → firstSeen s₁ l = firstSeen s₂ l := by
  intro l
  induction l with
  | nil => intro s₁ s₂ _; rfl
  | cons o os ih =>
    intro s₁ s₂ h
    simp only [firstSeen]
    by_cases hm : o.as_number ∈ s₁
    · rw [if_pos hm, if_pos ((h _).mp hm), ih _ _ h]
    · rw [if_neg hm, if_neg (fun hc => hm ((h _).mpr hc))]
      rw [ih (o.as_number :: s₁) (o.as_number :: s₂) ?_]
      intro a
      simp only [List.mem_cons, h a]

theorem ip2asnLoop_eq_processAll (rt : Resolver) (now : Nat) (ip : IpAddr) :
    ∀ (origins : List CymruOrigin) (acc : List CymruIP2ASN),
      ip2asnLoop rt now ip origins acc =
        processAll rt now ip
          (firstSeen (acc.map fun r => r.as_number) origins) acc := by
  intro origins
  induction origins with
  | nil => intro acc; rfl
  | cons o os ih =>
    intro acc
    simp only [ip2asnLoop, firstSeen]
    by_cases hm : o.as_number ∈ acc.map fun r => r.as_number
    · rw [if_pos hm, if_pos hm, ih]
    · rw [if_neg hm, if_neg hm]
      simp only [processAll]
      cases hasn : cymru_asn rt now o.as_number with
      | none => rfl
      | some r =>
        cases r with
        | error e => rfl
        | ok rs =>
          cases rs with
          | nil => rfl
          | cons a rest =>
            show ip2asnLoop rt now ip os (acc ++ [mkMerged ip o a]) =
              processAll rt now ip
                (firstSeen (o.as_number :: acc.map fun r => r.as_number) os)
                (acc ++ [mkMerged ip o a])
            rw [ih]
            congr 1
            apply firstSeen_congr
            intro b
            simp only [List.map_append, List.map_cons, List.map_nil,
              List.mem_append, List.mem_cons, List.mem_singleton, mkMerged,
              List.not_mem_nil, or_false]
            tauto

theorem processAll_ok_spec (rt : Resolver) (now : Nat) (ip : IpAddr) :
    ∀ (ds : List CymruOrigin) (acc results : List CymruIP2ASN),
      processAll rt now ip ds acc = some (.ok results) →
      results.map (fun r => r.as_number) =
        acc.map (fun r => r.as_number) ++ ds.map (fun o => o.as_number) ∧
      ∀ r ∈ results, r ∈ acc ∨ ∃ o ∈ ds, ∃ a rest,
        cymru_asn rt now o.as_number = some (.ok (a :: rest)) ∧
        r = mkMerged ip o a := by
  intro ds
  induction ds with
  | nil =>
    intro acc results h
    simp only [processAll, Option.some.injEq, Except.ok.injEq] at h
    subst h
    exact ⟨by simp, fun r hr => Or.inl hr⟩
  | cons o os ih =>
    intro acc results h
    simp only [processAll] at h
    split at h
    · exact absurd h (by simp)
    · exact absurd h (by simp)
    · exact absurd h (by simp)
    · rename_i a rest hasn
      obtain ⟨hmap, hmem⟩ := ih _ _ h
      constructor
      · rw [hmap]
        simp [mkMerged, List.append_assoc]
      · intro r hr
        rcases hmem r hr with hacc | ⟨o', ho', a', rest', hl, he⟩
        · rw [List.mem_append] at hacc
          rcases hacc with h1 | h2
          · exact Or.inl h1
          · rw [List.mem_singleton] at h2
            exact Or.inr ⟨o, List.mem_cons_self o os, a, rest, hasn, h2⟩
        · exact Or.inr ⟨o', List.mem_cons_of_mem _ ho', a', rest', hl, he⟩

theorem processAll_error (rt : Resolver) (now : Nat) (ip : IpAddr)
    (e : Error) :
    ∀ (ds₁ : List CymruOrigin) (o : CymruOrigin) (ds₂ : List CymruOrigin)
      (acc : List CymruIP2ASN),
      (∀ p ∈ ds₁, ∃ rs, cymru_asn rt now p.as_number = some (.ok rs)) →
      cymru_asn rt now o.as_number = some (.error e) →
      processAll rt now ip (ds₁ ++ o :: ds₂) acc = some (.error e) := by
  intro ds₁
  induction ds₁ with
  | nil =>
    intro o ds₂ acc _ herr
    simp only [List.nil_append, processAll]
    rw [herr]
  | cons p ps ih =>
    intro o ds₂ acc hok herr
    obtain ⟨rs, hrs⟩ := hok p (List.mem_cons_self p ps)
    have hne := cymru_asn_ok_ne_nil hrs
    cases rs with
    | nil => exact absurd rfl hne
    | cons a rest =>
      simp only [List.cons_append, processAll]
      rw [hrs]
      exact ih o ds₂ _ (fun q hq => hok q (List.mem_cons_of_mem _ hq)) herr

theorem firstSeen_mem {o : CymruOrigin} :
    ∀ {l : List CymruOrigin} {seen : List Nat},
      o ∈ firstSeen seen l → o ∈ l := by
  intro l
  induction l with
  | nil => intro seen h; exact absurd h (List.not_mem_nil o)
  | cons p ps ih =>
    intro seen h
    simp only [firstSeen] at h
    split at h
    · exact List.mem_cons_of_mem _ (ih h)
    · rcases List.mem_cons.mp h with h1 | h2
      · exact h1 ▸ List.mem_cons_self p ps
      · exact List.mem_cons_of_mem _ (ih h2)

theorem firstSeen_map :
    ∀ (l : List CymruOrigin) (seen : List Nat),
      (firstSeen seen l).map (fun o => o.as_number) =
        firstOccurAux seen (l.map fun o => o.as_number) := by
  intro l
  induction l with
  | nil => intro seen; rfl
  | cons o os ih =>
    intro seen
    simp only [firstSeen, firstOccurAux, List.map_cons]
    by_cases hm : o.as_number ∈ seen
    · rw [if_pos hm, if_pos hm, ih]
    · rw [if_neg hm, if_neg hm, List.map_cons, ih]

theorem firstSeen_find? :
    ∀ (l : List CymruOrigin) (seen : List Nat) (o : CymruOrigin),
      o ∈ firstSeen seen l →
      o.as_number ∉ seen ∧
        l.find? (fun p => p.as_number == o.as_number) = some o := by
  intro l
  induction l with
  | nil => intro seen o h; exact absurd h (List.not_mem_nil o)
  | cons p ps ih =>
    intro seen o h
    simp only [firstSeen] at h
    by_cases hp : p.as_number ∈ seen
    · rw [if_pos hp] at h
      obtain ⟨hnot, hfind⟩ := ih seen o h
      refine ⟨hnot, ?_⟩
      have hne : (p.as_number == o.as_number) = false := by
        simp only [beq_eq_false_iff_ne, ne_eq]
        intro hc
        exact hnot (hc ▸ hp)
      rw [List.find?_cons_of_neg _ (by simp [hne]), hfind]
    · rw [if_neg hp] at h
      rcases List.mem_cons.mp h with h1 | h2
      · subst h1
        exact ⟨hp, List.find?_cons_of_pos _ (by simp)⟩
      · obtain ⟨hnot, hfind⟩ := ih _ o h2
        simp only [List.mem_cons, not_or] at hnot
        refine ⟨hnot.2, ?_⟩
        have hne : (p.as_number == o.as_number) = false := by
          simp only [beq_eq_false_iff_ne, ne_eq]
          intro hc
          exact hnot.1 hc.symm
        rw [List.find?_cons_of_neg _ (by simp [hne]), hfind]

theorem cymru_ip2asn_ok_elim {rt : Resolver} {now : Nat} {ip : IpAddr}
    {origins : List CymruOrigin} {results : List CymruIP2ASN}
    (h₀ : cymru_origin rt now ip = some (.ok origins))
    (h : cymru_ip2asn rt now ip = some (.ok results)) :
    processAll rt now ip (firstSeen [] origins) [] = some (.ok results) := by
  simp only [cymru_ip2asn, h₀] at h
  rw [ip2asnLoop_eq_processAll] at h
  simp only [List.map_nil] at h
  split at h
  · exact absurd h (by simp)
  · exact absurd h (by simp)
  · split at h
    · exact absurd h (by simp)
    · rename_i results' hmatch hguard
      simp only [Option.some.injEq, Except.ok.injEq] at h
      subst h
      exact hmatch

/-! ## Claim theorems -/

/-- Claim C2: whenever the origin query of `cymru_ip2asn` succeeds but the
AS-info sub-query for some required (distinct, first-seen) AS number fails —
every earlier required sub-query having succeeded — `cymru_ip2asn` returns
that failure, and no partial merged list is returned. -/
theorem cymru_ip2asn_fail_fast (rt : Resolver) (now : Nat) (ip : IpAddr)
    (origins ds₁ ds₂ : List CymruOrigin) (o : CymruOrigin) (e : Error)
    (h₀ : cymru_origin rt now ip = some (.ok origins))
    (hsplit : firstSeen [] origins = ds₁ ++ o :: ds₂)
    (hok : ∀ p ∈ ds₁, ∃ rs, cymru_asn rt now p.as_number = some (.ok rs))
    (herr : cymru_asn rt now o.as_number = some (.error e)) :
    cymru_ip2asn rt now ip = some (.error e) := by
  have hpa := processAll_error rt now ip e ds₁ o ds₂ [] hok herr
  simp only [cymru_ip2asn, h₀]
  rw [ip2asnLoop_eq_processAll]
  simp only [List.map_nil]
  rw [hsplit, hpa]

/-- Claim C3: every `CymruIP2ASN` produced by `cymru_ip2asn` has an
`expires` equal to the minimum of the `expires` of the contributing origin
record and the `expires` of the contributing AS-info record. -/
theorem cymru_ip2asn_expires_min (rt : Resolver) (now : Nat) (ip : IpAddr)
    (origins : List CymruOrigin) (results : List CymruIP2ASN)
    (h₀ : cymru_origin rt now ip = some (.ok origins))
    (h : cymru_ip2asn rt now ip = some (.ok results)) :
    ∀ r ∈ results, ∃ o a, o ∈ origins ∧ o.as_number = r.as_number ∧
      (∃ rest, cymru_asn rt now o.as_number = some (.ok (a :: rest))) ∧
      r.expires = min o.expires a.expires := by
  have hp := cymru_ip2asn_ok_elim h₀ h
  obtain ⟨-, hmem⟩ := processAll_ok_spec rt now ip _ [] results hp
  intro r hr
  rcases hmem r hr with hacc | ⟨o, ho, a, rest, hl, he⟩
  · exact absurd hacc (List.not_mem_nil r)
  · subst he
    exact ⟨o, a, firstSeen_mem ho, rfl, ⟨rest, hl⟩, rfl⟩

/-- Claim C4: the merged output of `cymru_ip2asn` has exactly one result per
distinct `as_number` of the parsed origin records, in order of first
appearance, and the prefix/country/registry/allocation fields of each result
come from the first origin record carrying that `as_number`. -/
theorem cymru_ip2asn_dedup_first_seen (rt : Resolver) (now : Nat)
    (ip : IpAddr) (origins : List CymruOrigin)
    (results : List CymruIP2ASN)
    (h₀ : cymru_origin rt now ip = some (.ok origins))
    (h : cymru_ip2asn rt now ip = some (.ok results)) :
    results.map (fun r => r.as_number) =
      firstOccur (origins.map fun o => o.as_number) ∧
    ∀ r ∈ results, ∃ o,
      origins.find? (fun p => p.as_number == r.as_number) = some o ∧
      r.bgpPrefix = o.bgpPrefix ∧ r.country_code = o.country_code ∧
      r.registry = o.registry ∧ r.allocated = o.allocated.map dateToChars := by
  have hp := cymru_ip2asn_ok_elim h₀ h
  obtain ⟨hmap, hmem⟩ := processAll_ok_spec rt now ip _ [] results hp
  constructor
  · rw [hmap]
    simp only [List.map_nil, List.nil_append]
    rw [firstSeen_map]
    rfl
  · intro r hr
    rcases hmem r hr with hacc | ⟨o, ho, a, rest, hl, he⟩
    · exact absurd hacc (List.not_mem_nil r)
    · obtain ⟨-, hfind⟩ := firstSeen_find? origins [] o ho
      subst he
      exact ⟨o, hfind, rfl, rfl, rfl, rfl⟩

/-- Claim C9: every successful result of `cymru_asn` or `cymru_ip2asn` is a
non-empty list; an empty parsed result set is turned into the no-results
error instead. -/
theorem cymru_success_nonempty (rt : Resolver) (now asn : Nat) (ip : IpAddr)
    (rs₁ : List CymruASN) (rs₂ : List CymruIP2ASN) :
    (cymru_asn rt now asn = some (.ok rs₁) → rs₁ ≠ []) ∧
      (cymru_ip2asn rt now ip = some (.ok rs₂) → rs₂ ≠ []) := by
  constructor
  · exact cymru_asn_ok_ne_nil
  · intro h
    unfold cymru_ip2asn at h
    split at h
    · exact absurd h (by simp)
    · exact absurd h (by simp)
    · split at h
      · exact absurd h (by simp)
      · exact absurd h (by simp)
      · split at h
        · exact absurd h (by simp)
        · rename_i hguard
          simp only [Option.some.injEq, Except.ok.injEq] at h
          subst h
          assumption

theorem parseOriginTokens_filterMap (f1 f2 f3 f4 : List Char)
    (fs : List (List Char)) (t : Nat) :
    ∀ tokens, parseOriginTokens tokens (f1 :: f2 :: f3 :: f4 :: fs) t =
      some (tokens.filterMap fun tok => (parseU32 tok).map fun n =>
        { as_number := n, bgpPrefix := f1, country_code := f2, registry := f3,
          allocated := parseDate f4, expires := t }) := by
  intro tokens
  induction tokens with
  | nil => rfl
  | cons tok ts ih =>
    simp only [parseOriginTokens, List.filterMap_cons, ih]
    cases parseU32 tok <;> rfl

/-- Claim C5 (amended): for every origin response row whose pipe-split,
trimmed field list has at least five fields, the leading field is split on
the space character into tokens (each trimmed) and one `CymruOrigin` is
emitted per token that parses as a valid AS number, all sharing the
remaining fields of the row; a token that does not parse is silently skipped
without discarding the records of the other tokens. -/
theorem parse_origin_row_space_split (record : List Char) (t : Nat)
    (f0 f1 f2 f3 f4 : List Char) (fs : List (List Char))
    (h : (splitChar '|' record).map trimChars =
      f0 :: f1 :: f2 :: f3 :: f4 :: fs) :
    parse_cymru_origin [record] t =
      some (((splitChar ' ' f0).map trimChars).filterMap fun tok =>
        (parseU32 tok).map fun n =>
          { as_number := n, bgpPrefix := f1, country_code := f2,
            registry := f3, allocated := parseDate f4, expires := t }) := by
  simp only [parse_cymru_origin, parseOriginRow, h,
    parseOriginTokens_filterMap]
  simp [List.append_nil]

/-- Claim C5 as stated is refuted at a concrete row: the leading field
`1\t2` holds two whitespace-separated tokens that both parse as AS numbers,
so the claim predicts two records, but the code splits on the space
character only and yields zero records. -/
theorem parse_origin_whitespace_cex :
    (specWhitespaceOriginRow
        (("1\t2 | 203.0.113.0/24 | GB | ripencc | 2006-02-17").data)
        0).length = 2 ∧
      parse_cymru_origin
        [("1\t2 | 203.0.113.0/24 | GB | ripencc | 2006-02-17").data] 0 =
        some [] := by
  decide

/-- Claim C1 fails on the code: a row consisting of a single valid AS number
and no further pipe-separated fields makes both record parsers index past
the end of the field vector — a panic (modelled `none`) — instead of
skipping the malformed row with zero records. -/
theorem parse_short_row_panic :
    parse_cymru_asn [("23028").data] 0 = none ∧
    parse_cymru_origin [("23028").data] 0 = none := by
  decide

theorem intercalate_four (s a b c d : List Char) :
    List.intercalate s [a, b, c, d] = a ++ s ++ (b ++ s ++ (c ++ s ++ d)) := by
  simp [List.intercalate, List.intersperse, List.append_assoc]

/-- Claim C6: for all valid IPv4 octets (w,x,y,z) the origin query name is
the four octets in reversed order, rendered in decimal, joined with dots,
with the origin suffix appended. -/
theorem originQueryV4_reversed_octets (w x y z : Nat)
    (_hw : w < 256) (_hx : x < 256) (_hy : y < 256) (_hz : z < 256) :
    originQueryV4 w x y z =
      List.intercalate ['.'] (([w, x, y, z].reverse).map decimalChars) ++
        (".origin.asn.cymru.com.").data := by
  show decimalChars z ++ ['.'] ++ decimalChars y ++ ['.'] ++
      decimalChars x ++ ['.'] ++ decimalChars w ++
      (".origin.asn.cymru.com.").data = _
  simp only [List.reverse_cons, List.reverse_nil, List.nil_append,
    List.singleton_append, List.cons_append, List.map_cons, List.map_nil,
    intercalate_four, List.append_assoc]

/-- Claim C7: the nibble encoding of the IPv6 address
2001:db8:123:4567:89ab:cdef:123:4567 (octets listed in address order) is the
32 hexadecimal nibbles in fully reversed order, least-significant nibble of
the last octet first. -/
theorem ipv6_nibbles_sample_literal :
    ipv6_nibbles [32, 1, 13, 184, 1, 35, 69, 103, 137, 171, 205, 239,
        1, 35, 69, 103] =
      some (("7.6.5.4.3.2.1.0.f.e.d.c.b.a.9.8.7.6.5.4.3.2.1.0.8.b.d.0.1.0.0.2").data) := by
  decide

/-- Claim C8: parsing the single origin row
`1 23 456 7890 | 203.0.113.0/24 | GB | ripencc | 2006-02-17` yields exactly
four records with AS numbers 1, 23, 456, 7890 in input order, sharing the
remaining fields. -/
theorem parse_origin_multi_asn_row (t : Nat) :
    parse_cymru_origin
        [("1 23 456 7890 | 203.0.113.0/24 | GB | ripencc | 2006-02-17").data]
        t =
      some
        [{ as_number := 1, bgpPrefix := ("203.0.113.0/24").data,
           country_code := ("GB").data, registry := ("ripencc").data,
           allocated := some ⟨2006, 2, 17⟩, expires := t },
         { as_number := 23, bgpPrefix := ("203.0.113.0/24").data,
           country_code := ("GB").data, registry := ("ripencc").data,
           allocated := some ⟨2006, 2, 17⟩, expires := t },
         { as_number := 456, bgpPrefix := ("203.0.113.0/24").data,
           country_code := ("GB").data, registry := ("ripencc").data,
           allocated := some ⟨2006, 2, 17⟩, expires := t },
         { as_number := 7890, bgpPrefix := ("203.0.113.0/24").data,
           country_code := ("GB").data, registry := ("ripencc").data,
           allocated := some ⟨2006, 2, 17⟩, expires := t }] := by
  rfl

/-- Claim C10: the address encoder has no error path — both the IPv4 query
name and, for any well-formed IPv6 address (16 octets, each below 256), the
IPv6 nibble query name are always produced; in particular the per-nibble
character conversion never fails because every nibble value is below 16. -/
theorem encoder_total (w x y z n : Nat) (octets : List Nat)
    (_hlen : octets.length = 16) (hv : ∀ o ∈ octets, o < 256) :
    (∃ s, originQueryName (.v4 w x y z) = some s) ∧
      (∃ s, asnQuery n = s) ∧
      ∃ s, originQueryName (.v6 octets) = some s := by
  refine ⟨⟨_, rfl⟩, ⟨_, rfl⟩, ?_⟩
  · have hv' : ∀ o ∈ octets.reverse, o < 256 := fun o ho =>
      hv o (List.mem_reverse.mp ho)
    obtain ⟨ps, hps⟩ := nibbleParts_total hv'
    refine ⟨List.intercalate ['.'] ps ++ (".origin6.asn.cymru.com.").data, ?_⟩
    simp [originQueryName, ipv6_nibbles, hps]

/-! ## Witnesses -/

/-- Witness for `cymru_ip2asn_fail_fast` at a concrete collaborator. -/
theorem cymru_ip2asn_fail_fast_witness :
    cymru_origin demoResolveFail 0 demoIp = some (.ok [demoOrigin1]) ∧
      cymru_ip2asn demoResolveFail 0 demoIp =
        some (.error (.resolverError ("no connection available").data)) :=
  ⟨by decide,
    cymru_ip2asn_fail_fast demoResolveFail 0 demoIp [demoOrigin1] [] []
      demoOrigin1 (.resolverError ("no connection available").data)
      (by decide) (by decide)
      (fun p hp => absurd hp (List.not_mem_nil p)) (by decide)⟩

/-- Witness for `cymru_ip2asn_expires_min` at a concrete collaborator,
instantiated at the first merged result. -/
theorem cymru_ip2asn_expires_min_witness :
    ∃ o a, o ∈ [demoOrigin1, demoOrigin2, demoOrigin3] ∧
      o.as_number = demoMerged1.as_number ∧
      (∃ rest, cymru_asn demoResolve 0 o.as_number = some (.ok (a :: rest))) ∧
      demoMerged1.expires = min o.expires a.expires :=
  cymru_ip2asn_expires_min demoResolve 0 demoIp
    [demoOrigin1, demoOrigin2, demoOrigin3] [demoMerged1, demoMerged2]
    (by decide) (by decide) demoMerged1 (by decide)

/-- Witness for `cymru_ip2asn_dedup_first_seen` at a concrete collaborator
whose origin answer repeats an AS number. -/
theorem cymru_ip2asn_dedup_first_seen_witness :
    ([demoMerged1, demoMerged2].map (fun r => r.as_number) =
      firstOccur ([demoOrigin1, demoOrigin2, demoOrigin3].map
        fun o => o.as_number)) ∧
    ∃ o, [demoOrigin1, demoOrigin2, demoOrigin3].find?
          (fun p => p.as_number == demoMerged2.as_number) = some o ∧
      demoMerged2.bgpPrefix = o.bgpPrefix ∧
      demoMerged2.country_code = o.country_code ∧
      demoMerged2.registry = o.registry ∧
      demoMerged2.allocated = o.allocated.map dateToChars :=
  ⟨(cymru_ip2asn_dedup_first_seen demoResolve 0 demoIp
      [demoOrigin1, demoOrigin2, demoOrigin3] [demoMerged1, demoMerged2]
      (by decide) (by decide)).1,
    (cymru_ip2asn_dedup_first_seen demoResolve 0 demoIp
      [demoOrigin1, demoOrigin2, demoOrigin3] [demoMerged1, demoMerged2]
      (by decide) (by decide)).2 demoMerged2 (by decide)⟩

/-- Witness for `cymru_success_nonempty` at a concrete collaborator. -/
theorem cymru_success_nonempty_witness :
    [demoAsn1] ≠ ([] : List CymruASN) ∧
      [demoMerged1, demoMerged2] ≠ ([] : List CymruIP2ASN) :=
  ⟨(cymru_success_nonempty demoResolve 0 23028 demoIp [demoAsn1]
      [demoMerged1, demoMerged2]).1 (by decide),
    (cymru_success_nonempty demoResolve 0 23028 demoIp [demoAsn1]
      [demoMerged1, demoMerged2]).2 (by decide)⟩

/-- Witness for `parse_origin_row_space_split` at a concrete row containing
an unparsable token between two valid AS numbers. -/
theorem parse_origin_row_space_split_witness :
    (splitChar '|'
        (("64496 abc 64497 | 198.51.100.0/24 | US | arin | 2000-01-01").data)).map
        trimChars =
      ("64496 abc 64497").data :: ("198.51.100.0/24").data :: ("US").data ::
        ("arin").data :: ("2000-01-01").data :: [] ∧
    parse_cymru_origin
        [("64496 abc 64497 | 198.51.100.0/24 | US | arin | 2000-01-01").data]
        0 =
      some (((splitChar ' ' (("64496 abc 64497").data)).map
          trimChars).filterMap fun tok =>
        (parseU32 tok).map fun n =>
          { as_number := n, bgpPrefix := ("198.51.100.0/24").data,
            country_code := ("US").data, registry := ("arin").data,
            allocated := parseDate (("2000-01-01").data), expires := 0 }) :=
  ⟨by decide,
    parse_origin_row_space_split
      (("64496 abc 64497 | 198.51.100.0/24 | US | arin | 2000-01-01").data)
      0 (("64496 abc 64497").data) (("198.51.100.0/24").data) (("US").data)
      (("arin").data) (("2000-01-01").data) [] (by decide)⟩

/-- Witness for `originQueryV4_reversed_octets` at the address 192.0.2.1. -/
theorem originQueryV4_reversed_octets_witness :
    ((192 : Nat) < 256 ∧ (0 : Nat) < 256 ∧ (2 : Nat) < 256 ∧
      (1 : Nat) < 256) ∧
    originQueryV4 192 0 2 1 =
      List.intercalate ['.'] (([192, 0, 2, 1].reverse).map decimalChars) ++
        (".origin.asn.cymru.com.").data :=
  ⟨⟨by decide, by decide, by decide, by decide⟩,
    originQueryV4_reversed_octets 192 0 2 1 (by decide) (by decide)
      (by decide) (by decide)⟩

/-- Witness for `encoder_total` at a concrete IPv6 address. -/
theorem encoder_total_witness :
    (([32, 1, 13, 184, 1, 35, 69, 103, 137, 171, 205, 239, 1, 35, 69,
        103] : List Nat).length = 16 ∧
      ∀ o ∈ ([32, 1, 13, 184, 1, 35, 69, 103, 137, 171, 205, 239, 1, 35, 69,
        103] : List Nat), o < 256) ∧
    (∃ s, originQueryName (.v4 192 0 2 1) = some s) ∧
      (∃ s, asnQuery 23028 = s) ∧
      ∃ s, originQueryName
        (.v6 [32, 1, 13, 184, 1, 35, 69, 103, 137, 171, 205, 239, 1, 35, 69,
          103]) = some s :=
  ⟨⟨by decide, by decide⟩,
    encoder_total 192 0 2 1 23028
      [32, 1, 13, 184, 1, 35, 69, 103, 137, 171, 205, 239, 1, 35, 69, 103]
      (by decide) (by decide)⟩
